import Mathlib

/-!
Shallow embedding of the ruxguitar UI application layer
(src/src/ui/application.rs) together with spec-modelled stubs for the
collaborators that live outside the provided sources (the GP parser,
the audio player, the tablature widget and the tokio watch channel).
Definitions are translated from the source; the spec-modelled ones say
so in their doc comment.
-/

namespace Ruxguitar

/-- Modelled from the spec: the detected GP format version variants
(`GpVersion` in the parser module, absent from src/); the spec only says
it is a small closed set of supported versions. -/
inductive GpVersion where
  | GP3
  | GP4
  | GP5
  deriving DecidableEq, Repr, BEq

/-- Modelled from the spec §6: `DecodeError` is one of `UnsupportedVersion`,
`UnexpectedEndOfData`, `InvalidTempo`, `EmptyScore`. -/
inductive DecodeError where
  | UnsupportedVersion
  | UnexpectedEndOfData
  | InvalidTempo
  | EmptyScore
  deriving DecidableEq, Repr, BEq

/-- Modelled from the spec §3: a Track is a named instrument line (the
scheduler-opaque tuning metadata and measures are not needed by the UI
layer under verification, which only reads `track.name`). -/
structure Track where
  name : String
  deriving DecidableEq, Repr, Inhabited

/-- Modelled from the spec: the parser song metadata block; the source UI
reads `song.song_info.name` and `song.song_info.artist`. -/
structure GpSongInfo where
  name : String
  artist : String
  deriving DecidableEq, Repr

/-- Modelled from the spec: the tempo value record; the source UI reads
`song_rc.tempo.value`. -/
structure Tempo where
  value : Nat
  deriving DecidableEq, Repr

/-- Modelled from the spec §3: the decoded Score model (`Song` in the
parser module, absent from src/), with the fields the UI layer reads:
`song_info`, `version`, `tempo`, `tracks`. -/
structure Song where
  song_info : GpSongInfo
  version : GpVersion
  tempo : Tempo
  tracks : List Track
  deriving DecidableEq, Repr

/-- Modelled from the spec §4.2: maps the signature byte to a known
version marker; an unknown signature means `UnsupportedVersion`. -/
def sigVersion (b : Nat) : Option GpVersion :=
  match b with
  | 3 => some GpVersion.GP3
  | 4 => some GpVersion.GP4
  | 5 => some GpVersion.GP5
  | _ => none

/-- Modelled from the spec §4.2 step 5: read the declared number of
per-track blocks; running out of bytes is `UnexpectedEndOfData`. -/
def readTracks : Nat → List Nat → Option (List Track)
  | 0, _ => some []
  | _ + 1, [] => none
  | n + 1, b :: rest => (readTracks n rest).map (fun ts => Track.mk (toString b) :: ts)

/-- Modelled from the spec §4.2: `parse_gp_data : bytes -> Result<Song,
DecodeError>` (the parser module is absent from src/). Executable
simplification faithful to the spec contract: a signature byte selects
the version (unknown signature aborts with `UnsupportedVersion`), a
metadata block (title, artist), a tempo validated positive
(`InvalidTempo`), a track count validated nonzero (`EmptyScore`), then
the declared number of track blocks; any premature end of the byte
stream yields `UnexpectedEndOfData`, and no partial Score is ever
returned. -/
def parse_gp_data (bytes : List Nat) : Except DecodeError Song :=
  match bytes with
  | sig :: title :: artist :: tempo :: ntracks :: rest =>
    match sigVersion sig with
    | none => .error DecodeError.UnsupportedVersion
    | some v =>
      if tempo = 0 then .error DecodeError.InvalidTempo
      else if ntracks = 0 then .error DecodeError.EmptyScore
      else
        match readTracks ntracks rest with
        | none => .error DecodeError.UnexpectedEndOfData
        | some tracks =>
          .ok { song_info := { name := toString title, artist := toString artist }
                version := v
                tempo := { value := tempo }
                tracks := tracks }
  | _ => .error DecodeError.UnexpectedEndOfData

/-- Modelled from the spec: the file picker error (the picker module is
absent from src/ and out of the spec's scope). -/
inductive PickerError where
  | pickError
  deriving DecidableEq, Repr

/-- Modelled from the spec §4.3: the playback scheduler state machine has
states `Stopped`, `Playing`, `Paused`. -/
inductive PlayerState where
  | Stopped
  | Playing
  | Paused
  deriving DecidableEq, Repr

/-- Modelled from the spec §4.3: the held state of the playback scheduler
(`AudioPlayer`, absent from src/): session tempo, state machine state,
current tick index, current measure index, solo-track selection, and the
measure count of the bound Score (for seek clamping). -/
structure AudioPlayer where
  tempo : Nat
  state : PlayerState
  tick : Nat
  measure : Nat
  soloTrack : Option Nat
  measureCount : Nat
  deriving DecidableEq, Repr

namespace AudioPlayer

/-- Modelled from the spec §4.3: `start`: constructs a fresh session
bound to one Score, initially stopped at tick 0 with no solo
(`AudioPlayer::new(song, tempo, sound_font_file, beat_sender)` in the
source call site). -/
def new (song : Song) (tempo : Nat) (_sound_font_file : Option String) : AudioPlayer :=
  { tempo := tempo
    state := PlayerState.Stopped
    tick := 0
    measure := 0
    soloTrack := none
    measureCount := song.tracks.length }

/-- Modelled from the spec §4.3: `stop()`: from any state, transitions to
`Stopped`, resets tick/measure to 0. -/
def stop (p : AudioPlayer) : AudioPlayer :=
  { p with state := PlayerState.Stopped, tick := 0, measure := 0 }

/-- Modelled from the spec §4.3: `toggle_play()`: `Stopped` to `Playing`
begins from tick 0; `Paused` to `Playing` resumes from the held tick;
`Playing` to `Paused` halts without resetting position. -/
def toggle_play (p : AudioPlayer) : AudioPlayer :=
  match p.state with
  | PlayerState.Stopped => { p with state := PlayerState.Playing, tick := 0 }
  | PlayerState.Paused => { p with state := PlayerState.Playing }
  | PlayerState.Playing => { p with state := PlayerState.Paused }

/-- Modelled from the spec §4.3: `focus_measure(index)`: seeks the
current measure, clamped to the valid measure range. -/
def focus_measure (p : AudioPlayer) (index : Nat) : AudioPlayer :=
  { p with measure := min index (p.measureCount - 1) }

/-- Modelled from the spec §4.3: `toggle_solo_mode(track_index)`: if the
given track is already the sole soloed track, clears solo; otherwise
sets it as the sole soloed track. -/
def toggle_solo_mode (p : AudioPlayer) (track_index : Nat) : AudioPlayer :=
  if p.soloTrack = some track_index then
    { p with soloTrack := none }
  else
    { p with soloTrack := some track_index }

/-- Modelled from the spec §4.3: `is_playing()`, a pure state query. -/
def is_playing (p : AudioPlayer) : Bool :=
  p.state = PlayerState.Playing

/-- Modelled from the spec §4.3: `solo_track_id()`, a pure state query. -/
def solo_track_id (p : AudioPlayer) : Option Nat :=
  p.soloTrack

end AudioPlayer

/-- Modelled from the spec: the tablature widget (absent from src/); the
UI layer under verification calls `update_track`, `focus_on_measure`,
`focus_on_tick` on it and reads `scroll_id`. -/
structure Tablature where
  track : Nat
  focusedMeasure : Nat
  focusedTick : Nat
  scrollId : String
  deriving DecidableEq, Repr

namespace Tablature

/-- Modelled from the spec: `Tablature::new(song, track, scroll_id)`
builds the widget focused at the start on the given track. -/
def new (_song : Song) (track : Nat) (scroll_id : String) : Tablature :=
  { track := track, focusedMeasure := 0, focusedTick := 0, scrollId := scroll_id }

/-- Modelled from the spec: `update_track` switches the displayed track. -/
def update_track (t : Tablature) (index : Nat) : Tablature :=
  { t with track := index }

/-- Modelled from the spec: `focus_on_measure` moves the tablature focus
to the given measure. -/
def focus_on_measure (t : Tablature) (measure_id : Nat) : Tablature :=
  { t with focusedMeasure := measure_id }

/-- Modelled from the spec: `focus_on_tick` moves the tablature focus to
the given tick. -/
def focus_on_tick (t : Tablature) (tick : Nat) : Tablature :=
  { t with focusedTick := tick }

end Tablature

/-- `TrackSelection` from the source: an index and a display name. -/
structure TrackSelection where
  index : Nat
  name : String
  deriving DecidableEq, Repr

/-- `TrackSelection::default()` from the source derive. -/
def TrackSelection.default : TrackSelection :=
  { index := 0, name := "" }

/-- `SongDisplayInfo` from the source. -/
structure SongDisplayInfo where
  name : String
  artist : String
  gp_version : GpVersion
  file_name : String
  deriving DecidableEq, Repr

/-- `SongDisplayInfo::new` from the source. -/
def SongDisplayInfo.new (song : Song) (file_name : String) : SongDisplayInfo :=
  { name := song.song_info.name
    artist := song.song_info.artist
    gp_version := song.version
    file_name := file_name }

/-- Modelled from the spec §4.4: the position feed is a tokio
watch-style channel, a single cell holding only the latest published
value (no queue of intermediate values). -/
structure WatchChannel where
  value : Nat
  deriving DecidableEq, Repr

/-- Modelled from the spec §4.4: the writer publishes a value by
overwriting the cell, without blocking on readers. -/
def watchSend (_c : WatchChannel) (v : Nat) : WatchChannel :=
  { value := v }

/-- A sequence of publishes by the scheduler, in order. -/
def publishAll (c : WatchChannel) (vs : List Nat) : WatchChannel :=
  vs.foldl watchSend c

/-- Modelled from the spec §4.4: `borrow_and_update` reads the single
most recent value held by the channel. -/
def borrowAndUpdate (c : WatchChannel) : Nat :=
  c.value

/-- The body of one iteration of `audio_player_beat_subscription` from
the source: read the tick from the channel with `borrow_and_update` and
publish it to the UI as a `FocusTick` message. -/
def beatSubscriptionRead (c : WatchChannel) : Nat :=
  borrowAndUpdate c

/-- `Message` from the source. -/
inductive Message where
  | OpenFile
  | FileOpened (result : Except PickerError (List Nat × String))
  | TrackSelected (selection : TrackSelection)
  | FocusMeasure (measure_id : Nat)
  | FocusTick (tick : Nat)
  | PlayPause
  | StopPlayer
  | ToggleSolo
  deriving Repr

/-- The commands (`iced::Task`) the update handler can return:
`Task::perform(open_file(), ...)` and `scroll_to(id, offset)`;
`Task::none()` is the empty command list. -/
inductive Cmd where
  | spawnOpenFile
  | scrollTo (id : String) (x y : Nat)
  deriving DecidableEq, Repr

/-- Ordered side effects of one `update` call that claims about event
ordering refer to: the `parse_gp_data` call, the `stop()` of a previous
audio player, and the construction of a new audio player. -/
inductive Event where
  | parseGpData
  | audioPlayerStop
  | audioPlayerNew
  deriving DecidableEq, Repr, BEq

/-- The application state `RuxApplication` from the source. The channel
pair `beat_sender`/`beat_receiver` is modelled by the single cell they
share. -/
structure RuxApplication where
  song_info : Option SongDisplayInfo
  track_selection : TrackSelection
  all_tracks : List TrackSelection
  tablature : Option Tablature
  audio_player : Option AudioPlayer
  tab_file_is_loading : Bool
  sound_font_file : Option String
  beat_channel : WatchChannel
  deriving DecidableEq, Repr

namespace RuxApplication

/-- `RuxApplication::new` from the source: everything empty, a fresh
watch channel initialised at 0. -/
def new (sound_font_file : Option String) : RuxApplication :=
  { song_info := none
    track_selection := TrackSelection.default
    all_tracks := []
    tablature := none
    audio_player := none
    tab_file_is_loading := false
    sound_font_file := sound_font_file
    beat_channel := { value := 0 } }

/-- The scroll id literal used by the `FileOpened` handler in the
source. -/
def tablatureScrollId : String := "tablature-scroll-elements"

/-- `RuxApplication::update` from the source, with the returned
commands and the ordered side-effect events made explicit. `none`
models a panic (the only panicking site is the `track_selections[0]`
indexing in the `FileOpened` success branch). -/
def updateT (s : RuxApplication) (m : Message) :
    Option (RuxApplication × List Cmd × List Event) :=
  match m with
  | Message.TrackSelected selection =>
    some ({ s with
            tablature := s.tablature.map (fun t => t.update_track selection.index)
            track_selection := selection }, [], [])
  | Message.OpenFile =>
    if s.tab_file_is_loading then
      some (s, [], [])
    else
      some ({ s with tab_file_is_loading := true }, [Cmd.spawnOpenFile], [])
  | Message.FileOpened result =>
    let s1 := { s with tab_file_is_loading := false }
    match result with
    | Except.ok (contents, file_name) =>
      match parse_gp_data contents with
      | Except.ok song =>
        -- build all tracks selection
        let track_selections :=
          song.tracks.enum.map (fun p => TrackSelection.mk p.1 p.2.name)
        -- select first track by default (source indexes track_selections[0])
        match track_selections[0]? with
        | none => none
        | some default_track_selection =>
          let s2 := { s1 with
                      all_tracks := track_selections
                      song_info := some (SongDisplayInfo.new song file_name)
                      track_selection := default_track_selection }
          let tablature := Tablature.new song 0 tablatureScrollId
          let s3 := { s2 with tablature := some tablature }
          -- stop previous audio player if any
          let stopped :
              RuxApplication × List Event :=
            match s3.audio_player with
            | some p => ({ s3 with audio_player := some p.stop }, [Event.audioPlayerStop])
            | none => (s3, [])
          -- audio player initialization
          let audio_player :=
            AudioPlayer.new song song.tempo.value s.sound_font_file
          let s5 := { stopped.1 with audio_player := some audio_player }
          some (s5, [Cmd.scrollTo tablatureScrollId 0 0],
                Event.parseGpData :: (stopped.2 ++ [Event.audioPlayerNew]))
      | Except.error _ =>
        some (s1, [], [Event.parseGpData])
    | Except.error _ =>
      some (s1, [], [])
  | Message.FocusMeasure measure_id =>
    let sA : RuxApplication :=
      { s with tablature := s.tablature.map (fun t => t.focus_on_measure measure_id) }
    let sB : RuxApplication :=
      { sA with audio_player := sA.audio_player.map (fun p => p.focus_measure measure_id) }
    some (sB, [], [])
  | Message.FocusTick tick =>
    some ({ s with tablature := s.tablature.map (fun t => t.focus_on_tick tick) }, [], [])
  | Message.PlayPause =>
    some ({ s with audio_player := s.audio_player.map AudioPlayer.toggle_play }, [], [])
  | Message.StopPlayer =>
    match s.audio_player, s.tablature with
    | some p, some t =>
      some ({ s with
              audio_player := some p.stop
              tablature := some (t.focus_on_measure 0) },
            [Cmd.scrollTo t.scrollId 0 0], [])
    | _, _ => some (s, [], [])
  | Message.ToggleSolo =>
    some ({ s with
            audio_player :=
              s.audio_player.map (fun p => p.toggle_solo_mode s.track_selection.index) },
          [], [])

/-- The state after one update, ignoring commands and events. -/
def updateState (s : RuxApplication) (m : Message) : Option RuxApplication :=
  (updateT s m).map (fun out => out.1)

/-- Running a sequence of messages from a state; `none` once any step
panics. -/
def run (s : RuxApplication) : List Message → Option RuxApplication
  | [] => some s
  | m :: rest =>
    match updateState s m with
    | some s1 => run s1 rest
    | none => none

end RuxApplication

/-- `a` occurs strictly before `b` in the list. -/
def precedesB (tr : List Event) (a b : Event) : Bool :=
  match tr with
  | [] => false
  | x :: rest => (x == a && rest.contains b) || precedesB rest a b

/-! Concrete fixtures used by witnesses and counterexamples. -/

/-- A byte input that decodes successfully: signature 5 (GP5), title and
artist bytes, tempo 120, one track. -/
def sampleBytes : List Nat := [5, 10, 20, 120, 1, 7]

/-- The song `sampleBytes` decodes to. -/
def sampleSong : Song :=
  { song_info := { name := "10", artist := "20" }
    version := GpVersion.GP5
    tempo := { value := 120 }
    tracks := [Track.mk "7"] }

/-- A playback session in the middle of playing, no solo. -/
def samplePlayer : AudioPlayer :=
  { tempo := 100
    state := PlayerState.Playing
    tick := 5
    measure := 2
    soloTrack := none
    measureCount := 4 }

/-- A tablature focused away from the origin. -/
def sampleTablature : Tablature :=
  { track := 0
    focusedMeasure := 3
    focusedTick := 9
    scrollId := RuxApplication.tablatureScrollId }

/-- An application state with a loaded song, an active session and a
tablature, as after a successful earlier load. -/
def sampleState : RuxApplication :=
  { song_info := some { name := "old", artist := "band",
                        gp_version := GpVersion.GP4, file_name := "old.gp4" }
    track_selection := { index := 0, name := "7" }
    all_tracks := [{ index := 0, name := "7" }]
    tablature := some sampleTablature
    audio_player := some samplePlayer
    tab_file_is_loading := false
    sound_font_file := none
    beat_channel := { value := 0 } }

/-- `sampleState` with track 0 already the sole soloed track. -/
def soloState : RuxApplication :=
  { sampleState with
    audio_player := some { samplePlayer with soloTrack := some 0 } }

/-! Claim theorems. -/

/-- Claim C10: handling an OpenFile message while a file load is already
in progress (tab_file_is_loading is true) is a complete no-op: the state
is returned unchanged and no file-open task is spawned. -/
theorem C10_openFile_noop_while_loading (s : RuxApplication)
    (h : s.tab_file_is_loading = true) :
    s.updateT Message.OpenFile = some (s, [], []) := by
  simp [RuxApplication.updateT, h]

/-- Witness for C10 at a concrete loading state. -/
theorem C10_witness :
    ({ sampleState with tab_file_is_loading := true } : RuxApplication).updateT
        Message.OpenFile =
      some ({ sampleState with tab_file_is_loading := true }, [], []) :=
  C10_openFile_noop_while_loading { sampleState with tab_file_is_loading := true } rfl

/-- Claim C3: a FileOpened(Ok) message whose contents fail to decode
leaves song_info, all_tracks, track_selection, tablature and
audio_player exactly as they were; only tab_file_is_loading is reset to
false, no command is issued, and the only side effect is the parse
attempt itself. -/
theorem C3_failed_decode_frame (s : RuxApplication) (contents : List Nat)
    (file_name : String) (e : DecodeError)
    (h : parse_gp_data contents = Except.error e) :
    s.updateT (Message.FileOpened (Except.ok (contents, file_name))) =
      some ({ s with tab_file_is_loading := false }, [], [Event.parseGpData]) := by
  simp [RuxApplication.updateT, h]

/-- Witness for C3: the empty byte input fails to decode and the sample
state is untouched apart from the loading flag. -/
theorem C3_witness :
    sampleState.updateT (Message.FileOpened (Except.ok ([], "bad.gp"))) =
      some ({ sampleState with tab_file_is_loading := false }, [],
            [Event.parseGpData]) :=
  C3_failed_decode_frame sampleState [] "bad.gp" DecodeError.UnexpectedEndOfData rfl

/-- Claim C2: every failing decode of a byte input is surfaced to the
caller of `parse_gp_data` as a single aggregate typed error value, never
a partial Score. -/
theorem C2_decode_error_surfaced (contents : List Nat)
    (h : (parse_gp_data contents).isOk = false) :
    ∃ e : DecodeError, parse_gp_data contents = Except.error e := by
  cases hp : parse_gp_data contents with
  | ok song => rw [hp] at h; simp [Except.isOk, Except.toBool] at h
  | error e => exact ⟨e, rfl⟩

/-- Witness for C2 at the empty byte input. -/
theorem C2_witness :
    (parse_gp_data []).isOk = false ∧
    ∃ e : DecodeError, parse_gp_data [] = Except.error e :=
  ⟨rfl, C2_decode_error_surfaced [] rfl⟩

/-- Claim C5: handling StopPlayer while a session and a tablature exist
stops the player (from any state, to Stopped with tick and measure 0),
sets the tablature focus to measure 0, and issues a scroll command
resetting the tablature scroll offset to the origin. -/
theorem C5_stop_player_resets (s : RuxApplication) (p : AudioPlayer)
    (t : Tablature) (hp : s.audio_player = some p) (ht : s.tablature = some t) :
    s.updateT Message.StopPlayer =
      some ({ s with audio_player := some p.stop
                     tablature := some (t.focus_on_measure 0) },
            [Cmd.scrollTo t.scrollId 0 0], []) ∧
    p.stop.state = PlayerState.Stopped ∧ p.stop.tick = 0 ∧ p.stop.measure = 0 ∧
    (t.focus_on_measure 0).focusedMeasure = 0 := by
  refine ⟨?_, rfl, rfl, rfl, rfl⟩
  simp [RuxApplication.updateT, hp, ht]

/-- Witness for C5 at the concrete sample state (session playing at tick
5, tablature focused on measure 3). -/
theorem C5_witness :
    sampleState.updateT Message.StopPlayer =
      some ({ sampleState with
              audio_player := some samplePlayer.stop
              tablature := some (sampleTablature.focus_on_measure 0) },
            [Cmd.scrollTo sampleTablature.scrollId 0 0], []) ∧
    samplePlayer.stop.state = PlayerState.Stopped ∧
    samplePlayer.stop.tick = 0 ∧ samplePlayer.stop.measure = 0 ∧
    (sampleTablature.focus_on_measure 0).focusedMeasure = 0 :=
  C5_stop_player_resets sampleState samplePlayer sampleTablature rfl rfl

/-- After any sequence of publishes the channel cell holds the last
published value (or the old value for the empty sequence). -/
theorem publishAll_value (vs : List Nat) (c : WatchChannel) :
    (publishAll c vs).value = vs.getLastD c.value := by
  induction vs generalizing c with
  | nil => rfl
  | cons v rest ih =>
    rw [List.getLastD_cons]
    exact ih { value := v }

/-- Claim C4: the position feed is last-value-wins: after any nonempty
sequence of publishes by the writer, a reader's next check
(`borrow_and_update`, as done by the beat subscription loop) observes
exactly the single most recent published tick index, never a backlog of
intermediate values. -/
theorem C4_last_value_wins (c : WatchChannel) (vs : List Nat) (h : vs ≠ []) :
    borrowAndUpdate (publishAll c vs) = vs.getLast h ∧
    beatSubscriptionRead (publishAll c vs) = vs.getLast h := by
  have hv : borrowAndUpdate (publishAll c vs) = vs.getLast h := by
    rw [borrowAndUpdate, publishAll_value, List.getLastD_eq_getLast?,
      List.getLast?_eq_getLast _ h, Option.getD_some]
  exact ⟨hv, hv⟩

/-- Witness for C4: publishing ticks 1, 2, 3 leaves exactly 3 readable. -/
theorem C4_witness :
    borrowAndUpdate (publishAll { value := 0 } [1, 2, 3]) = 3 ∧
    beatSubscriptionRead (publishAll { value := 0 } [1, 2, 3]) = 3 :=
  C4_last_value_wins { value := 0 } [1, 2, 3] (by simp)

/-- Counterexample for C6 as stated: in a session where track 0 is
already the sole soloed track and track 0 is the selected track, two
consecutive ToggleSolo messages do NOT return the session to the
no-solo state: they leave track 0 soloed again. -/
theorem C6_counterexample :
    soloState.run [Message.ToggleSolo, Message.ToggleSolo] = some soloState ∧
    soloState.audio_player.map AudioPlayer.solo_track_id = some (some 0) := by
  constructor <;> rfl

/-- Claim C6 (amended): toggle_solo_mode is an idempotent toggle on one
track, not additive: toggling the selected track clears solo when it is
already the sole soloed track and otherwise makes it the sole soloed
track; hence two consecutive ToggleSolo messages with the same selected
track return the session to the no-solo state whenever that track was
not already the sole soloed track beforehand. -/
theorem C6_toggle_solo_amended (s : RuxApplication) (p : AudioPlayer)
    (hp : s.audio_player = some p) :
    (p.toggle_solo_mode s.track_selection.index).soloTrack =
      (if p.soloTrack = some s.track_selection.index then none
       else some s.track_selection.index) ∧
    (p.soloTrack ≠ some s.track_selection.index →
      ∃ s2, s.run [Message.ToggleSolo, Message.ToggleSolo] = some s2 ∧
        ∃ p2, s2.audio_player = some p2 ∧ p2.soloTrack = none) := by
  constructor
  · by_cases hk : p.soloTrack = some s.track_selection.index <;>
      simp [AudioPlayer.toggle_solo_mode, hk]
  · intro hne
    refine ⟨{ s with audio_player := some ((p.toggle_solo_mode s.track_selection.index).toggle_solo_mode s.track_selection.index) }, ?_, ?_⟩
    · simp [RuxApplication.run, RuxApplication.updateState, RuxApplication.updateT, hp]
    · refine ⟨_, rfl, ?_⟩
      simp [AudioPlayer.toggle_solo_mode, hne]

/-- Witness for C6 (amended) at the sample state, where no track is
soloed and track 0 is selected. -/
theorem C6_witness :
    ((samplePlayer.toggle_solo_mode sampleState.track_selection.index).soloTrack =
      (if samplePlayer.soloTrack = some sampleState.track_selection.index then none
       else some sampleState.track_selection.index)) ∧
    ∃ s2, sampleState.run [Message.ToggleSolo, Message.ToggleSolo] = some s2 ∧
      ∃ p2, s2.audio_player = some p2 ∧ p2.soloTrack = none := by
  have h := C6_toggle_solo_amended sampleState samplePlayer rfl
  exact ⟨h.1, h.2 (by simp [samplePlayer, sampleState])⟩

/-- A successful `readTracks` with a nonzero declared count yields a
nonempty track list. -/
theorem readTracks_ok_ne_nil (n : Nat) (bs : List Nat) (ts : List Track)
    (h : readTracks (n + 1) bs = some ts) : ts ≠ [] := by
  cases bs with
  | nil => simp [readTracks] at h
  | cons b rest =>
    simp [readTracks, Option.map_eq_some'] at h
    obtain ⟨ts1, _, h2⟩ := h
    rw [← h2]
    simp

/-- A successfully decoded song has at least one track (the decoder
rejects zero tracks with `EmptyScore`). -/
theorem parse_gp_data_ok_tracks (contents : List Nat) (song : Song)
    (h : parse_gp_data contents = Except.ok song) : song.tracks ≠ [] := by
  rcases contents with _ | ⟨sig, _ | ⟨title, _ | ⟨artist, _ | ⟨tempo, _ | ⟨ntracks, rest⟩⟩⟩⟩⟩ <;>
    simp [parse_gp_data] at h
  rcases hsv : sigVersion sig with _ | v <;> simp [hsv] at h
  by_cases htz : tempo = 0
  · simp [htz] at h
  rcases ntracks with _ | m
  · simp [htz] at h
  rcases hr : readTracks (m + 1) rest with _ | ts <;> simp [htz, hr] at h
  rw [← h]
  exact readTracks_ok_ne_nil m rest ts hr

/-- Characterisation of the `FileOpened(Ok)` handler on a successful
decode of a song with at least one track: the resulting state, the
scroll command, and the ordered side effects (parse first, then the stop
of a previous player when one exists, then the new player). -/
theorem updateT_fileOpened_ok_char (s : RuxApplication) (contents : List Nat)
    (file_name : String) (song : Song)
    (hs : parse_gp_data contents = Except.ok song) (hne : song.tracks ≠ []) :
    s.updateT (Message.FileOpened (Except.ok (contents, file_name))) =
      some ({ s with
              tab_file_is_loading := false
              all_tracks :=
                song.tracks.enum.map (fun q => TrackSelection.mk q.1 q.2.name)
              song_info := some (SongDisplayInfo.new song file_name)
              track_selection := TrackSelection.mk 0 song.tracks.headI.name
              tablature := some (Tablature.new song 0 RuxApplication.tablatureScrollId)
              audio_player :=
                some (AudioPlayer.new song song.tempo.value s.sound_font_file) },
            [Cmd.scrollTo RuxApplication.tablatureScrollId 0 0],
            Event.parseGpData ::
              ((if s.audio_player.isSome then [Event.audioPlayerStop] else []) ++
                [Event.audioPlayerNew])) := by
  obtain ⟨t0, rest, htr⟩ := List.exists_cons_of_ne_nil hne
  cases hap : s.audio_player <;>
    simp [RuxApplication.updateT, hs, htr, hap, List.enum, List.enumFrom, List.headI]

/-- Claim C7: for every successfully decoded song, the new playback
session is constructed with the Score's own tempo value
(`song_rc.tempo.value`) as the session tempo. -/
theorem C7_session_tempo (s : RuxApplication) (contents : List Nat)
    (file_name : String) (song : Song)
    (hs : parse_gp_data contents = Except.ok song) :
    ∃ out, s.updateT (Message.FileOpened (Except.ok (contents, file_name))) = some out ∧
      out.1.audio_player =
        some (AudioPlayer.new song song.tempo.value s.sound_font_file) ∧
      (AudioPlayer.new song song.tempo.value s.sound_font_file).tempo =
        song.tempo.value := by
  rw [updateT_fileOpened_ok_char s contents file_name song hs
    (parse_gp_data_ok_tracks contents song hs)]
  exact ⟨_, rfl, rfl, rfl⟩

/-- Witness for C7 at a concrete input: the sample bytes decode at tempo
120 and the new session carries tempo 120. -/
theorem C7_witness :
    ∃ out, sampleState.updateT (Message.FileOpened (Except.ok (sampleBytes, "new.gp5"))) =
        some out ∧
      out.1.audio_player =
        some (AudioPlayer.new sampleSong sampleSong.tempo.value
          sampleState.sound_font_file) ∧
      (AudioPlayer.new sampleSong sampleSong.tempo.value
        sampleState.sound_font_file).tempo = sampleSong.tempo.value :=
  C7_session_tempo sampleState sampleBytes "new.gp5" sampleSong rfl

/-- Claim C8: on a successful parse of a song with at least one track,
the handler does not hit the panic branch of the `track_selections[0]`
indexing (the update returns a state), and the default selection is the
track at index 0. -/
theorem C8_first_track_selected (s : RuxApplication) (contents : List Nat)
    (file_name : String) (song : Song)
    (hs : parse_gp_data contents = Except.ok song) (hne : song.tracks ≠ []) :
    ∃ out, s.updateT (Message.FileOpened (Except.ok (contents, file_name))) = some out ∧
      out.1.track_selection = TrackSelection.mk 0 song.tracks.headI.name := by
  rw [updateT_fileOpened_ok_char s contents file_name song hs hne]
  exact ⟨_, rfl, rfl⟩

/-- Witness for C8 at a concrete input: the sample bytes decode to a
one-track song and track 0 is selected. -/
theorem C8_witness :
    ∃ out, sampleState.updateT (Message.FileOpened (Except.ok (sampleBytes, "new.gp5"))) =
        some out ∧
      out.1.track_selection = TrackSelection.mk 0 sampleSong.tracks.headI.name :=
  C8_first_track_selected sampleState sampleBytes "new.gp5" sampleSong rfl (by simp [sampleSong])

/-- Counterexample for C1 as stated: at a concrete FileOpened(Ok)
message handled while a previous audio player session exists and whose
bytes decode successfully, the stop of the old session does NOT precede
the `parse_gp_data` call: decoding begins first (source lines 150 and
178). -/
theorem C1_counterexample :
    sampleState.audio_player.isSome = true ∧
    (parse_gp_data sampleBytes).isOk = true ∧
    (sampleState.updateT (Message.FileOpened (Except.ok (sampleBytes, "new.gp5")))).map
        (fun out => precedesB out.2.2 Event.audioPlayerStop Event.parseGpData) =
      some false := by
  refine ⟨rfl, rfl, rfl⟩

/-- Claim C1 (amended): when a FileOpened(Ok) message with successfully
decoding bytes is handled while a previous session exists, the old
session's stop() is invoked after the decode (`parse_gp_data`) but
before the new audio player is constructed, so the two sessions never
overlap — the decode, however, begins before the old session is
stopped. -/
theorem C1_amended_stop_before_new (s : RuxApplication) (p : AudioPlayer)
    (contents : List Nat) (file_name : String) (song : Song)
    (hp : s.audio_player = some p) (hs : parse_gp_data contents = Except.ok song) :
    ∃ out, s.updateT (Message.FileOpened (Except.ok (contents, file_name))) = some out ∧
      out.2.2 = [Event.parseGpData, Event.audioPlayerStop, Event.audioPlayerNew] ∧
      precedesB out.2.2 Event.audioPlayerStop Event.audioPlayerNew = true ∧
      precedesB out.2.2 Event.audioPlayerStop Event.parseGpData = false := by
  rw [updateT_fileOpened_ok_char s contents file_name song hs
    (parse_gp_data_ok_tracks contents song hs)]
  refine ⟨_, rfl, ?_, ?_, ?_⟩ <;> simp [hp, precedesB] <;> decide

/-- Witness for C1 (amended) at the concrete sample state and bytes. -/
theorem C1_witness :
    ∃ out, sampleState.updateT (Message.FileOpened (Except.ok (sampleBytes, "new.gp5"))) =
        some out ∧
      out.2.2 = [Event.parseGpData, Event.audioPlayerStop, Event.audioPlayerNew] ∧
      precedesB out.2.2 Event.audioPlayerStop Event.audioPlayerNew = true ∧
      precedesB out.2.2 Event.audioPlayerStop Event.parseGpData = false :=
  C1_amended_stop_before_new sampleState samplePlayer sampleBytes "new.gp5" sampleSong rfl rfl

/-- Mapping preserves whether an option is present. -/
theorem option_isSome_map {α β : Type} (f : α → β) (o : Option α) :
    (o.map f).isSome = o.isSome := by
  cases o <;> rfl

/-- Every non-panicking update step either leaves the presence of
song_info, tablature and audio_player unchanged, or sets all three. -/
theorem updateT_fields_some_eq (s : RuxApplication) (m : Message)
    (out : RuxApplication × List Cmd × List Event)
    (h : s.updateT m = some out) :
    (out.1.song_info.isSome = s.song_info.isSome ∧
     out.1.tablature.isSome = s.tablature.isSome ∧
     out.1.audio_player.isSome = s.audio_player.isSome) ∨
    (out.1.song_info.isSome = true ∧ out.1.tablature.isSome = true ∧
     out.1.audio_player.isSome = true) := by
  cases m with
  | TrackSelected sel =>
    simp only [RuxApplication.updateT] at h
    have e := Option.some.inj h
    subst e
    exact Or.inl ⟨rfl, option_isSome_map _ _, rfl⟩
  | OpenFile =>
    simp only [RuxApplication.updateT] at h
    by_cases hl : s.tab_file_is_loading <;> simp [hl] at h <;>
      rw [← h] <;> exact Or.inl ⟨rfl, rfl, rfl⟩
  | FileOpened result =>
    rcases result with e | ⟨contents, file_name⟩
    · simp only [RuxApplication.updateT] at h
      have e2 := Option.some.inj h
      subst e2
      exact Or.inl ⟨rfl, rfl, rfl⟩
    · simp only [RuxApplication.updateT] at h
      cases hparse : parse_gp_data contents with
      | ok song =>
        rw [hparse] at h
        simp only at h
        cases hget :
            (song.tracks.enum.map (fun p => TrackSelection.mk p.1 p.2.name))[0]? with
        | none => rw [hget] at h; simp at h
        | some sel =>
          rw [hget] at h
          simp only at h
          cases hap : s.audio_player <;> rw [hap] at h <;> simp only at h <;>
            have e := Option.some.inj h <;> subst e <;>
            exact Or.inr ⟨rfl, rfl, rfl⟩
      | error e =>
        rw [hparse] at h
        simp only at h
        have e2 := Option.some.inj h
        subst e2
        exact Or.inl ⟨rfl, rfl, rfl⟩
  | FocusMeasure measure_id =>
    simp only [RuxApplication.updateT] at h
    have e := Option.some.inj h
    subst e
    exact Or.inl ⟨rfl, option_isSome_map _ _, option_isSome_map _ _⟩
  | FocusTick tick =>
    simp only [RuxApplication.updateT] at h
    have e := Option.some.inj h
    subst e
    exact Or.inl ⟨rfl, option_isSome_map _ _, rfl⟩
  | PlayPause =>
    simp only [RuxApplication.updateT] at h
    have e := Option.some.inj h
    subst e
    exact Or.inl ⟨rfl, rfl, option_isSome_map _ _⟩
  | StopPlayer =>
    simp only [RuxApplication.updateT] at h
    cases hap : s.audio_player <;> cases ht : s.tablature <;>
      rw [hap, ht] at h <;> simp only at h <;>
      have e := Option.some.inj h <;> subst e <;>
      simp [hap, ht]
  | ToggleSolo =>
    simp only [RuxApplication.updateT] at h
    have e := Option.some.inj h
    subst e
    exact Or.inl ⟨rfl, rfl, option_isSome_map _ _⟩

/-- Running any message sequence preserves the all-none-or-all-some
linkage of song_info, tablature and audio_player. -/
theorem run_linked (msgs : List Message) (s0 : RuxApplication)
    (hl : s0.song_info.isSome = s0.tablature.isSome ∧
          s0.tablature.isSome = s0.audio_player.isSome)
    (s : RuxApplication) (h : s0.run msgs = some s) :
    s.song_info.isSome = s.tablature.isSome ∧
    s.tablature.isSome = s.audio_player.isSome := by
  induction msgs generalizing s0 with
  | nil =>
    rw [RuxApplication.run] at h
    have e := Option.some.inj h
    subst e
    exact hl
  | cons m rest ih =>
    rw [RuxApplication.run] at h
    cases hu : s0.updateState m with
    | none => rw [hu] at h; exact absurd h (by simp)
    | some s1 =>
      rw [hu] at h
      obtain ⟨out, hout, hout1⟩ := Option.map_eq_some'.mp hu
      subst hout1
      rcases updateT_fields_some_eq s0 m out hout with hsame | hall
      · exact ih out.1 ⟨hsame.1 ▸ hsame.2.1 ▸ hl.1, hsame.2.1 ▸ hsame.2.2 ▸ hl.2⟩ h
      · exact ih out.1 ⟨hall.1.trans hall.2.1.symm, hall.2.1.trans hall.2.2.symm⟩ h

/-- Claim C9: in every application state reachable from
RuxApplication::new by any non-panicking sequence of update messages,
song_info, tablature and audio_player are all none or all some together,
and any further update step never clears one of them that was some back
to none. -/
theorem C9_linked_invariant (sf : Option String) (msgs : List Message)
    (s : RuxApplication) (m : Message)
    (out : RuxApplication × List Cmd × List Event)
    (hrun : (RuxApplication.new sf).run msgs = some s)
    (hstep : s.updateT m = some out) :
    (s.song_info.isSome = s.tablature.isSome ∧
     s.tablature.isSome = s.audio_player.isSome) ∧
    (s.song_info.isSome → out.1.song_info.isSome) ∧
    (s.tablature.isSome → out.1.tablature.isSome) ∧
    (s.audio_player.isSome → out.1.audio_player.isSome) := by
  have hl := run_linked msgs (RuxApplication.new sf) ⟨rfl, rfl⟩ s hrun
  refine ⟨hl, ?_, ?_, ?_⟩ <;>
    rcases updateT_fields_some_eq s m out hstep with hsame | hall <;>
    intro hsome
  · exact hsame.1 ▸ hsome
  · exact hall.1
  · exact hsame.2.1 ▸ hsome
  · exact hall.2.1
  · exact hsame.2.2 ▸ hsome
  · exact hall.2.2

/-- The state reached from RuxApplication::new none by one OpenFile
message. -/
def freshLoadingState : RuxApplication :=
  { RuxApplication.new none with tab_file_is_loading := true }

/-- Witness for C9: the concrete state reached by [OpenFile] satisfies
the linkage and a PlayPause step preserves presence of the fields. -/
theorem C9_witness :
    ((freshLoadingState.song_info.isSome = freshLoadingState.tablature.isSome ∧
      freshLoadingState.tablature.isSome = freshLoadingState.audio_player.isSome) ∧
     (freshLoadingState.song_info.isSome → freshLoadingState.song_info.isSome) ∧
     (freshLoadingState.tablature.isSome → freshLoadingState.tablature.isSome) ∧
     (freshLoadingState.audio_player.isSome → freshLoadingState.audio_player.isSome)) :=
  C9_linked_invariant none [Message.OpenFile] freshLoadingState Message.PlayPause
    (freshLoadingState, [], []) rfl rfl

end Ruxguitar
